import Mathlib

/-!
Shallow embedding of the real-time event-subscription subsystem of the
Vencode JS SDK (`src/Client.ts`), together with proofs checking the
specification's claims about it.

Modelling conventions:
* The client state (`ClientState`) carries the `eventSources` registry,
  the shared `listenRetries` counter, and an arena of `EventSource`
  transports; a registry entry stores the arena index of its transport,
  mirroring the object reference the JS `EventListener` holds.
* An `EventSource` records the URL it was constructed with, whether
  `close()` has put it in the CLOSED state, and how many times `close()`
  was invoked on it.  A closed source delivers no further lifecycle
  events, which the `deliver` function enforces, as the browser/node
  `EventSource` does.
* Error signals are modelled by their `JSON.stringify` text, which is all
  `events.onerror` inspects.  Message payloads are modelled as raw
  strings together with a `parse` oracle standing for `JSON.parse`
  (returning `none` on a parse failure / thrown `SyntaxError`), and the
  caller callback as a function into `Except`, whose `error` case stands
  for a thrown JS exception.
* `encodeURIComponent(JSON.stringify({key, id}))` is an injective pure
  encoding of the access credentials that does not depend on the topic
  id; it is carried as the opaque pre-computed string `credsEnc`.
-/

namespace Vencode

/-- `matchAt pat l` is true when `pat` occurs at the head of `l`
(character-list prefix test used to implement JS `String.includes`). -/
def matchAt : List Char → List Char → Bool
  | [], _ => true
  | _ :: _, [] => false
  | p :: ps, c :: cs => p == c && matchAt ps cs

/-- `subSearch pat l` is true when `pat` occurs contiguously anywhere in
`l`. -/
def subSearch (pat : List Char) : List Char → Bool
  | [] => matchAt pat []
  | c :: cs => matchAt pat (c :: cs) || subSearch pat cs

/-- JS `s.includes(pat)`: does `pat` occur as a substring of `s`? -/
def strIncludes (s pat : String) : Bool :=
  subSearch pat.data s.data

/-- The slice of `IClientOptions` the subscription subsystem reads:
base URL, the encoded credential blob embedded in every stream URL,
the `debug` flag and the optional `maxListenRetry` ceiling. -/
structure ClientOptions where
  baseUrl : String
  credsEnc : String
  debug : Bool
  maxListenRetry : Option Nat
deriving DecidableEq

/-- `this.options.maxListenRetry || 15`: the default applies when the
option is absent and also when it is `0`, because `0` is falsy in JS. -/
def effCeiling (o : ClientOptions) : Nat :=
  match o.maxListenRetry with
  | some n => if n == 0 then 15 else n
  | none => 15

/-- One server-push transport: the URL `new EventSource(url)` received,
its CLOSED flag, and the number of `close()` calls made on it. -/
structure EventSource where
  url : String
  closed : Bool
  closeCount : Nat
deriving DecidableEq

/-- One registry entry (`class EventListener`): the topic id and the
arena index of the transport it owns. -/
structure EventListener where
  id : String
  src : Nat
deriving DecidableEq

/-- The mutable client state: transport arena, `this.eventSources`, and
the shared `this.listenRetries` counter. -/
structure ClientState where
  sources : List EventSource
  eventSources : List EventListener
  listenRetries : Nat
deriving DecidableEq

/-- A freshly constructed client: no subscriptions, counter `0`. -/
def emptyClient : ClientState :=
  { sources := [], eventSources := [], listenRetries := 0 }

/-- The stream URL built in `internalListen`:
`${baseUrl}/events?${id === "ALL" ? "all=true" : `jid=${id}`}&creds=...`. -/
def mkUrl (o : ClientOptions) (id : String) : String :=
  o.baseUrl ++ "/events?" ++ (if id == "ALL" then "all=true" else "jid=" ++ id)
    ++ "&creds=" ++ o.credsEnc

/-- JS `s.toLowerCase()` on the identifiers at hand: lower-case every
character (same semantics as `String.toLower`, stated on the character
list so that it evaluates by kernel reduction). -/
def lowerStr (s : String) : String :=
  String.mk (s.data.map Char.toLower)

/-- `Client.isListeningToAll`: some registry entry's id lower-cases to
`"all"`. -/
def isListeningToAll (s : ClientState) : Bool :=
  s.eventSources.any (fun l => lowerStr l.id == "all")

/-- `Client.internalListen`: early-return when the id lower-cases to the
sentinel and a sentinel subscription already exists; otherwise construct
a fresh `EventSource` and push a registry entry for it.  The callback
only feeds the message handler, which is modelled separately, so it does
not appear in the state. -/
def internalListen (o : ClientOptions) (id : String) (s : ClientState) : ClientState :=
  if lowerStr id == "all" && isListeningToAll s then s
  else
    { sources := s.sources ++ [{ url := mkUrl o id, closed := false, closeCount := 0 }],
      eventSources := s.eventSources ++ [{ id := id, src := s.sources.length }],
      listenRetries := s.listenRetries }

/-- Public `Client.listen(jobId, callback)`. -/
def listen (o : ClientOptions) (id : String) (s : ClientState) : ClientState :=
  internalListen o id s

/-- Public `Client.listenAll(callback)` delegates with id `"ALL"`. -/
def listenAll (o : ClientOptions) (s : ClientState) : ClientState :=
  internalListen o "ALL" s

/-- A `close()` call on the transport at arena index `h`: marks it
CLOSED and counts the invocation. -/
def closeSource (s : ClientState) (h : Nat) : ClientState :=
  match s.sources.get? h with
  | none => s
  | some es =>
      { s with sources :=
          s.sources.set h { es with closed := true, closeCount := es.closeCount + 1 } }

/-- `Client.stopListening(id)`: `find` the first matching entry; if one
exists, `splice(findIndex(...))` — note: `splice` with a single argument
removes that index AND every later element — then `close()` the found
entry's transport. -/
def stopListening (s : ClientState) (id : String) : ClientState :=
  match s.eventSources.find? (fun l => l.id == id) with
  | none => s
  | some found =>
      let i := s.eventSources.findIdx (fun l => l.id == id)
      closeSource { s with eventSources := s.eventSources.take i } found.src

/-- The retryability test in `events.onerror`: the stringified signal
contains `"connect ECONNREFUSED"` or `"No Found"`. -/
def retryable (str : String) : Bool :=
  strIncludes str "connect ECONNREFUSED" || strIncludes str "No Found"

/-- Is the transport at arena index `h` closed (a missing index delivers
nothing, treated as closed)? -/
def sourceClosed (s : ClientState) (h : Nat) : Bool :=
  match s.sources.get? h with
  | some es => es.closed
  | none => true

/-- A transport lifecycle event observed by a subscription's handlers:
`open` or `error` (with its stringified signal).  Message events are
modelled separately since they never touch the client state. -/
inductive ListenEvent where
  | opened : ListenEvent
  | errored : String → ListenEvent
deriving DecidableEq

/-- The body of `events.onerror` for the subscription whose transport
sits at arena index `h`: bump the shared counter when the signal is
retryable, then close the transport when the counter has reached the
ceiling (the check runs on every signal, retryable or not). -/
def onError (o : ClientOptions) (h : Nat) (str : String) (s : ClientState) : ClientState :=
  let retries := if retryable str then s.listenRetries + 1 else s.listenRetries
  let s' := { s with listenRetries := retries }
  if effCeiling o ≤ retries then closeSource s' h else s'

/-- Deliver one lifecycle event to the subscription at arena index `h`.
A CLOSED `EventSource` fires no handlers, so a closed transport leaves
the state unchanged.  `onopen` resets the shared counter to `0`. -/
def deliver (o : ClientOptions) (h : Nat) (e : ListenEvent) (s : ClientState) : ClientState :=
  if sourceClosed s h then s
  else
    match e with
    | ListenEvent.opened => { s with listenRetries := 0 }
    | ListenEvent.errored str => onError o h str s

/-- Deliver a sequence of lifecycle events, in order, to handle `h`. -/
def deliverAll (o : ClientOptions) (h : Nat) (es : List ListenEvent) (s : ClientState) :
    ClientState :=
  es.foldl (fun st e => deliver o h e st) s

/-- Outcome of one `events.onmessage` invocation: the list of callback
invocations it performed (`[]` or one decoded payload), whether the
`catch` branch ran, and whether an exception escaped the handler. -/
structure MsgOutcome (δ : Type) where
  invoked : List δ
  caught : Bool
  escaped : Bool
deriving DecidableEq

/-- The body of `events.onmessage`:
`try { const data = JSON.parse(ev.data); callback(data); } catch (err) { this.debug(...) }`.
The `try` wraps both the parse and the callback call, so a parse failure
and a thrown callback are both caught; nothing escapes the handler. -/
def runOnMessage {δ ε : Type} (parse : String → Option δ) (cb : δ → Except ε Unit)
    (raw : String) : MsgOutcome δ :=
  match parse raw with
  | none => { invoked := [], caught := true, escaped := false }
  | some d =>
      match cb d with
      | Except.ok _ => { invoked := [d], caught := false, escaped := false }
      | Except.error _ => { invoked := [d], caught := true, escaped := false }

/-- Run the message handler over a sequence of raw payloads, collecting
every callback invocation in order. -/
def processMessages {δ ε : Type} (parse : String → Option δ) (cb : δ → Except ε Unit)
    (msgs : List String) : List δ :=
  msgs.foldl (fun acc raw => acc ++ (runOnMessage parse cb raw).invoked) []

/-- Number of sentinel ("all jobs") subscriptions in the registry. -/
def sentinelCount (s : ClientState) : Nat :=
  (s.eventSources.filter (fun l => lowerStr l.id == "all")).length

/-- Does the registry hold a subscription with exactly this id? -/
def hasId (s : ClientState) (id : String) : Bool :=
  s.eventSources.any (fun l => l.id == id)

/-- The client state after a single `listen id` on a fresh client whose
shared counter has reached `j`: one open transport, one registry entry. -/
def singleSub (o : ClientOptions) (id : String) (j : Nat) : ClientState :=
  { sources := [{ url := mkUrl o id, closed := false, closeCount := 0 }],
    eventSources := [{ id := id, src := 0 }],
    listenRetries := j }

/-- Same as `singleSub` but after the transport has been closed exactly
once by the retry ceiling. -/
def singleSubClosed (o : ClientOptions) (id : String) (j : Nat) : ClientState :=
  { sources := [{ url := mkUrl o id, closed := true, closeCount := 1 }],
    eventSources := [{ id := id, src := 0 }],
    listenRetries := j }

/-- The client states reachable from a fresh client through the public
operations and transport-event delivery. -/
inductive Reachable : ClientState → Prop where
  | empty : Reachable emptyClient
  | listen (o : ClientOptions) (id : String) (s : ClientState) :
      Reachable s → Reachable (listen o id s)
  | listenAll (o : ClientOptions) (s : ClientState) :
      Reachable s → Reachable (listenAll o s)
  | stop (s : ClientState) (id : String) :
      Reachable s → Reachable (stopListening s id)
  | deliver (o : ClientOptions) (h : Nat) (e : ListenEvent) (s : ClientState) :
      Reachable s → Reachable (deliver o h e s)

/-! ### Concrete option records, states and callbacks used by witnesses
and counterexamples -/

/-- Options with retry ceiling `1`. -/
def optsR1 : ClientOptions :=
  { baseUrl := "u", credsEnc := "c", debug := false, maxListenRetry := some 1 }

/-- Options with retry ceiling `3`. -/
def optsR3 : ClientOptions :=
  { baseUrl := "u", credsEnc := "c", debug := false, maxListenRetry := some 3 }

/-- `listen("A")` then `listen("B")` on a fresh client. -/
def sAB : ClientState := listen optsR1 "B" (listen optsR1 "A" emptyClient)

/-- The reachable client state for C3: ceiling 1; `listen("A")`, one
retryable error on `A` (closing `A`, shared counter now 1), then
`listen("B")` — `B`'s transport is open at arena index 1. -/
def c3mid : ClientState :=
  listen optsR1 "B"
    (deliver optsR1 0 (ListenEvent.errored "connect ECONNREFUSED")
      (listen optsR1 "A" emptyClient))

/-- A kernel-evaluable stand-in for `JSON.parse` on numeric payloads,
used to instantiate the parse oracle in witnesses: decimal digits parse,
anything else is malformed. -/
def natParseAux : List Char → Nat → Option Nat
  | [], acc => some acc
  | c :: cs, acc =>
      if c.isDigit then natParseAux cs (acc * 10 + (c.toNat - 48)) else none

/-- Parse a decimal numeral; `none` models a thrown `SyntaxError`. -/
def natParse (s : String) : Option Nat :=
  match s.data with
  | [] => none
  | l => natParseAux l 0

/-- A caller callback that always throws. -/
def throwingCb : Nat → Except String Unit := fun _ => Except.error "callback exception"

/-- A caller callback that returns normally. -/
def okCb : Nat → Except String Unit := fun _ => Except.ok ()

/-! ### Basic lemmas about the embedding -/

theorem deliverAll_nil (o : ClientOptions) (h : Nat) (s : ClientState) :
    deliverAll o h [] s = s := rfl

theorem deliverAll_cons (o : ClientOptions) (h : Nat) (e : ListenEvent) (es : List ListenEvent)
    (s : ClientState) : deliverAll o h (e :: es) s = deliverAll o h es (deliver o h e s) := rfl

theorem deliverAll_append (o : ClientOptions) (h : Nat) (l₁ l₂ : List ListenEvent)
    (s : ClientState) :
    deliverAll o h (l₁ ++ l₂) s = deliverAll o h l₂ (deliverAll o h l₁ s) := by
  simp [deliverAll, List.foldl_append]

theorem closeSource_listenRetries (s : ClientState) (h : Nat) :
    (closeSource s h).listenRetries = s.listenRetries := by
  unfold closeSource
  split <;> rfl

theorem closeSource_eventSources (s : ClientState) (h : Nat) :
    (closeSource s h).eventSources = s.eventSources := by
  unfold closeSource
  split <;> rfl

theorem effCeiling_pos (o : ClientOptions) : 1 ≤ effCeiling o := by
  rcases o with ⟨b, c, d, m⟩
  cases m with
  | none => simp [effCeiling]
  | some n =>
      by_cases hn : n = 0
      · simp [effCeiling, hn]
      · have hb : (n == 0) = false := by simpa using hn
        simp [effCeiling, hb]
        omega

theorem listen_emptyClient (o : ClientOptions) (id : String) :
    listen o id emptyClient = singleSub o id 0 := by
  simp [listen, internalListen, isListeningToAll, emptyClient, singleSub]

/-- One retryable error below the ceiling: the counter ticks, nothing closes. -/
theorem deliver_err_lt (o : ClientOptions) (id str : String) (j : Nat)
    (hstr : retryable str = true) (hj : j + 1 < effCeiling o) :
    deliver o 0 (ListenEvent.errored str) (singleSub o id j) = singleSub o id (j + 1) := by
  have hle : ¬ (effCeiling o ≤ j + 1) := by omega
  simp [deliver, sourceClosed, singleSub, onError, hstr, hle]

/-- One retryable error reaching the ceiling: the counter ticks and the
transport is closed (one `close()` call). -/
theorem deliver_err_ge (o : ClientOptions) (id str : String) (j : Nat)
    (hstr : retryable str = true) (hj : effCeiling o ≤ j + 1) :
    deliver o 0 (ListenEvent.errored str) (singleSub o id j) = singleSubClosed o id (j + 1) := by
  simp [deliver, sourceClosed, singleSub, onError, hstr, hj, closeSource, singleSubClosed,
    List.set]

/-- A transport open resets the shared counter. -/
theorem deliver_opened (o : ClientOptions) (id : String) (j : Nat) :
    deliver o 0 ListenEvent.opened (singleSub o id j) = singleSub o id 0 := by
  simp [deliver, sourceClosed, singleSub, List.get?]

/-- A closed single-subscription state absorbs every further event. -/
theorem deliver_closedState (o : ClientOptions) (id : String) (j : Nat) (e : ListenEvent) :
    deliver o 0 e (singleSubClosed o id j) = singleSubClosed o id j := by
  simp [deliver, sourceClosed, singleSubClosed, List.get?]

theorem deliverAll_closedState (o : ClientOptions) (id : String) (j : Nat)
    (es : List ListenEvent) :
    deliverAll o 0 es (singleSubClosed o id j) = singleSubClosed o id j := by
  induction es with
  | nil => rfl
  | cons e es ih => rw [deliverAll_cons, deliver_closedState, ih]

/-- Iterating retryable errors while the counter stays below the ceiling. -/
theorem deliverAll_err_iter (o : ClientOptions) (id str : String)
    (hstr : retryable str = true) :
    ∀ (k j : Nat), j + k < effCeiling o →
      deliverAll o 0 (List.replicate k (ListenEvent.errored str)) (singleSub o id j)
        = singleSub o id (j + k) := by
  intro k
  induction k with
  | zero => intro j _; rfl
  | succ k ih =>
      intro j hjk
      rw [List.replicate_succ, deliverAll_cons, deliver_err_lt o id str j hstr (by omega)]
      have h : j + 1 + k = j + (k + 1) := by omega
      rw [ih (j + 1) (by omega), h]

/-- A `close()` call never reopens any transport. -/
theorem sourceClosed_closeSource (s : ClientState) (h' hdl : Nat)
    (hc : sourceClosed s hdl = true) :
    sourceClosed (closeSource s h') hdl = true := by
  unfold closeSource
  cases hg : s.sources.get? h' with
  | none => exact hc
  | some es =>
      by_cases hne : hdl = h'
      · subst hne
        have hlt : hdl < s.sources.length := by
          by_contra hge
          rw [List.get?_eq_none.mpr (by omega)] at hg
          exact Option.noConfusion hg
        simp [sourceClosed, List.getElem?_set_eq_of_lt _ hlt]
      · simpa [sourceClosed, List.getElem?_set_ne (fun hx => hne hx.symm)] using hc

/-- `close()` is sticky: no operation reopens a transport, so delivering
one event preserves closedness of every transport. -/
theorem sourceClosed_deliver (o : ClientOptions) (hdl h' : Nat) (e : ListenEvent)
    (s : ClientState) (hc : sourceClosed s hdl = true) :
    sourceClosed (deliver o h' e s) hdl = true := by
  unfold deliver
  by_cases hg : sourceClosed s h' = true
  · simp [hg, hc]
  · rw [if_neg hg]
    cases e with
    | opened => simpa [sourceClosed] using hc
    | errored str =>
        dsimp only [onError]
        by_cases hcl : effCeiling o ≤
            (if retryable str = true then s.listenRetries + 1 else s.listenRetries)
        · rw [if_pos hcl]
          exact sourceClosed_closeSource _ _ _ (by simpa [sourceClosed] using hc)
        · rw [if_neg hcl]
          simpa [sourceClosed] using hc

theorem sourceClosed_deliverAll (o : ClientOptions) (hdl h' : Nat) (es : List ListenEvent)
    (s : ClientState) (hc : sourceClosed s hdl = true) :
    sourceClosed (deliverAll o h' es s) hdl = true := by
  induction es generalizing s with
  | nil => exact hc
  | cons e es ih => rw [deliverAll_cons]; exact ih _ (sourceClosed_deliver o hdl h' e s hc)

/-- If a transport ends up open after a whole event sequence, it was open
after every prefix of the sequence: the code never reopens a transport. -/
theorem sourceClosed_take_of_final (o : ClientOptions) (hdl h' : Nat) (es : List ListenEvent)
    (s : ClientState) (hfin : sourceClosed (deliverAll o h' es s) hdl = false) :
    ∀ k, sourceClosed (deliverAll o h' (es.take k) s) hdl = false := by
  intro k
  by_contra hcl
  have hcl' : sourceClosed (deliverAll o h' (es.take k) s) hdl = true := by
    cases hx : sourceClosed (deliverAll o h' (es.take k) s) hdl
    · exact absurd hx hcl
    · rfl
  have : sourceClosed (deliverAll o h' es s) hdl = true := by
    rw [← List.take_append_drop k es, deliverAll_append]
    exact sourceClosed_deliverAll o hdl h' _ _ hcl'
  rw [this] at hfin
  exact Bool.noConfusion hfin

/-- Nothing before the first index satisfying `p` satisfies `p`. -/
theorem any_take_findIdx {α : Type} (p : α → Bool) (l : List α) :
    (l.take (l.findIdx p)).any p = false := by
  induction l with
  | nil => rfl
  | cons a t ih =>
      rw [List.findIdx_cons]
      cases hpa : p a
      · simpa [hpa] using ih
      · simp [hpa]

theorem length_filter_pos_of_any {α : Type} (p : α → Bool) (l : List α)
    (h : l.any p = true) : 0 < (l.filter p).length := by
  obtain ⟨x, hx, hpx⟩ := List.any_eq_true.mp h
  exact List.length_pos.mpr (List.ne_nil_of_mem (List.mem_filter.mpr ⟨hx, hpx⟩))

theorem filter_eq_nil_of_any_false {α : Type} (p : α → Bool) (l : List α)
    (h : l.any p = false) : l.filter p = [] := by
  rw [List.filter_eq_nil_iff]
  intro a ha hpa
  rw [List.any_eq_true.mpr ⟨a, ha, hpa⟩] at h
  exact Bool.noConfusion h

/-- The callback invocations one `onmessage` run performs, as a function
of the parse result alone (the callback's outcome does not change the
fact that it was invoked). -/
theorem invoked_runOnMessage {δ ε : Type} (parse : String → Option δ)
    (cb : δ → Except ε Unit) (raw : String) :
    (runOnMessage parse cb raw).invoked = (parse raw).toList := by
  unfold runOnMessage
  cases parse raw with
  | none => rfl
  | some d => cases hcb : cb d <;> simp [hcb, Option.toList]

theorem processMessages_go {δ ε : Type} (parse : String → Option δ)
    (cb : δ → Except ε Unit) (msgs : List String) :
    ∀ acc : List δ,
      msgs.foldl (fun acc raw => acc ++ (runOnMessage parse cb raw).invoked) acc
        = acc ++ msgs.filterMap parse := by
  induction msgs with
  | nil => intro acc; simp
  | cons r rs ih =>
      intro acc
      rw [List.foldl_cons, ih, invoked_runOnMessage, List.filterMap_cons]
      cases parse r with
      | none => simp [Option.toList]
      | some d => simp [Option.toList]

/-- `hasId` only looks at the registry, which `close()` leaves alone. -/
theorem hasId_closeSource (s : ClientState) (h : Nat) (id : String) :
    hasId (closeSource s h) id = hasId s id := by
  unfold hasId
  rw [closeSource_eventSources]

/-- What `close()` does to the transport it targets. -/
theorem closeSource_get? (s : ClientState) (h : Nat) (es : EventSource)
    (hg : s.sources.get? h = some es) :
    (closeSource s h).sources.get? h
      = some { url := es.url, closed := true, closeCount := es.closeCount + 1 } := by
  have hlt : h < s.sources.length := by
    by_contra hge
    rw [List.get?_eq_none.mpr (by omega)] at hg
    exact Option.noConfusion hg
  unfold closeSource
  rw [hg]
  simp [List.get?_eq_getElem?, List.getElem?_set_eq_of_lt _ hlt]

/-- Event delivery never touches the registry. -/
theorem deliver_eventSources (o : ClientOptions) (h : Nat) (e : ListenEvent)
    (s : ClientState) : (deliver o h e s).eventSources = s.eventSources := by
  unfold deliver
  by_cases hg : sourceClosed s h = true
  · simp [hg]
  · rw [if_neg hg]
    cases e with
    | opened => rfl
    | errored str =>
        dsimp only [onError]
        by_cases hcl : effCeiling o ≤
            (if retryable str = true then s.listenRetries + 1 else s.listenRetries)
        · rw [if_pos hcl, closeSource_eventSources]
        · rw [if_neg hcl]

theorem sentinelCount_closeSource (s : ClientState) (h : Nat) :
    sentinelCount (closeSource s h) = sentinelCount s := by
  unfold sentinelCount
  rw [closeSource_eventSources]

theorem sentinelCount_internalListen (o : ClientOptions) (id : String) (s : ClientState)
    (hs : sentinelCount s ≤ 1) : sentinelCount (internalListen o id s) ≤ 1 := by
  unfold internalListen
  cases hc : (lowerStr id == "all") with
  | false =>
      rw [if_neg (by rw [Bool.false_and]; exact Bool.noConfusion)]
      unfold sentinelCount at hs ⊢
      simpa [List.filter_append, hc] using hs
  | true =>
      cases hall : isListeningToAll s with
      | true => rw [if_pos (by decide)]; exact hs
      | false =>
          rw [if_neg (by decide)]
          have h4 : s.eventSources.filter (fun l => lowerStr l.id == "all") = [] :=
            filter_eq_nil_of_any_false _ _ hall
          unfold sentinelCount
          simp [List.filter_append, h4, hc]

theorem sentinelCount_stopListening (s : ClientState) (id : String)
    (hs : sentinelCount s ≤ 1) : sentinelCount (stopListening s id) ≤ 1 := by
  unfold stopListening
  cases hf : s.eventSources.find? (fun l => l.id == id) with
  | none => exact hs
  | some l =>
      rw [sentinelCount_closeSource]
      exact le_trans (((List.take_sublist _ _).filter _).length_le) hs

/-- The registry invariant: every reachable client state holds at most
one sentinel ("all jobs") subscription. -/
theorem sentinelCount_le_one_of_reachable (s : ClientState) (h : Reachable s) :
    sentinelCount s ≤ 1 := by
  induction h with
  | empty => decide
  | listen o id s _ ih => exact sentinelCount_internalListen o id s ih
  | listenAll o s _ ih => exact sentinelCount_internalListen o "ALL" s ih
  | stop s id _ ih => exact sentinelCount_stopListening s id ih
  | deliver o hd e s _ ih =>
      unfold sentinelCount at ih ⊢
      rw [deliver_eventSources]
      exact ih

/-! ### Claim theorems -/

/-- C1: the claim says `stopListening(A)` removes exactly the first
subscription whose id matches `A` and leaves `B` registered regardless
of registration order.  The code calls `splice(index)` with a single
argument, which removes every element from `index` on: with `A`
registered before `B`, `stopListening("A")` empties the registry — `B`'s
subscription is deregistered (with its transport left open and never
closed), while with `B` registered first `B` does survive.  This theorem
evaluates the embedded code at both orders, exhibiting the divergence. -/
theorem stopListening_splice_drops_later_subscriptions :
    (stopListening sAB "A").eventSources = []
    ∧ (stopListening sAB "A").sources.get? 1
        = some { url := mkUrl optsR1 "B", closed := false, closeCount := 0 }
    ∧ (stopListening (listen optsR1 "A" (listen optsR1 "B" emptyClient)) "A").eventSources
        = [{ id := "B", src := 0 }] := by
  decide

/-- C9: `stopListening(id)` with no matching subscription is a no-op
(the state — registry and every transport — is returned unchanged; the
function is total, so no exception); with a matching subscription it
invokes `close()` on that subscription's transport exactly once (its
`closeCount` goes up by exactly one and it is CLOSED), and afterwards no
subscription with that id remains in the registry (the first match is
the earliest, and `splice` removes it and everything after it). -/
theorem stopListening_remove_semantics (s : ClientState) (id : String) :
    (hasId s id = false → stopListening s id = s) ∧
    (∀ l, s.eventSources.find? (fun e => e.id == id) = some l → l.src < s.sources.length →
      hasId (stopListening s id) id = false ∧
      ∃ es, s.sources.get? l.src = some es ∧
        (stopListening s id).sources.get? l.src
          = some { url := es.url, closed := true, closeCount := es.closeCount + 1 }) := by
  constructor
  · intro hno
    have hfind : s.eventSources.find? (fun l => l.id == id) = none := by
      rw [List.find?_eq_none]
      intro x hx hpx
      have hx' : hasId s id = true := List.any_eq_true.mpr ⟨x, hx, hpx⟩
      rw [hx'] at hno
      exact Bool.noConfusion hno
    unfold stopListening
    rw [hfind]
  · intro l hl hlt
    have hstop : stopListening s id
        = closeSource { s with eventSources :=
            s.eventSources.take (s.eventSources.findIdx fun l => l.id == id) } l.src := by
      unfold stopListening
      rw [hl]
    rw [hstop]
    constructor
    · rw [hasId_closeSource]
      exact any_take_findIdx _ _
    · cases hg : s.sources.get? l.src with
      | none =>
          rw [List.get?_eq_none] at hg
          omega
      | some es => exact ⟨es, rfl, closeSource_get? _ l.src es hg⟩

/-- Witness for C9 at a concrete client: removing a registered id, and a
no-op on an unknown id. -/
theorem stopListening_remove_semantics_witness :
    hasId (stopListening sAB "A") "A" = false ∧ stopListening sAB "Z" = sAB :=
  ⟨((stopListening_remove_semantics sAB "A").2 { id := "A", src := 0 }
      (by decide) (by decide)).1,
   (stopListening_remove_semantics sAB "Z").1 (by decide)⟩

/-- C5: an error signal delivered to an open transport increments the
shared failure counter exactly when its stringified text contains
`"connect ECONNREFUSED"` or `"No Found"` (the code's connection-refused
and "not found" indicators); any other signal leaves it unchanged. -/
theorem errorSignal_increments_iff_indicator (o : ClientOptions) (h : Nat) (str : String)
    (s : ClientState) (hopen : sourceClosed s h = false) :
    (deliver o h (ListenEvent.errored str) s).listenRetries =
      if strIncludes str "connect ECONNREFUSED" || strIncludes str "No Found"
      then s.listenRetries + 1 else s.listenRetries := by
  unfold deliver
  rw [if_neg (by simp [hopen])]
  dsimp only [onError]
  by_cases hcl : effCeiling o ≤
      (if retryable str = true then s.listenRetries + 1 else s.listenRetries)
  · rw [if_pos hcl, closeSource_listenRetries]
    rfl
  · rw [if_neg hcl]
    rfl

/-- Witness for C5: a connection-refused signal on a fresh subscription. -/
theorem errorSignal_increments_iff_indicator_witness :
    (deliver optsR3 0 (ListenEvent.errored "x connect ECONNREFUSED")
        (listen optsR3 "A" emptyClient)).listenRetries =
      if strIncludes "x connect ECONNREFUSED" "connect ECONNREFUSED"
          || strIncludes "x connect ECONNREFUSED" "No Found"
      then (listen optsR3 "A" emptyClient).listenRetries + 1
      else (listen optsR3 "A" emptyClient).listenRetries :=
  errorSignal_increments_iff_indicator optsR3 0 "x connect ECONNREFUSED"
    (listen optsR3 "A" emptyClient) (by decide)

/-- C3: the claim says a non-retryable signal never increments the
counter (true) and never closes the subscription's transport in any
reachable state, including states where other topics accumulated
retryable errors.  The code, however, keeps ONE `listenRetries` counter
for the whole client and runs the ceiling check on every error signal:
here `B`'s open transport receives the non-retryable signal
`"unrelated transient error"`, the counter stays at 1 (unchanged), yet
`B` is closed because the shared counter already reached the ceiling via
`A`'s errors.  The spec itself (§9) flags the shared counter as a likely
source bug, so the code, not the claim, is at fault. -/
theorem nonretryable_error_closes_via_shared_counter :
    retryable "unrelated transient error" = false
    ∧ sourceClosed c3mid 1 = false
    ∧ (deliver optsR1 1 (ListenEvent.errored "unrelated transient error") c3mid).listenRetries
        = c3mid.listenRetries
    ∧ sourceClosed
        (deliver optsR1 1 (ListenEvent.errored "unrelated transient error") c3mid) 1 = true := by
  decide

/-- C2 counterexample: with ceiling 1, a single retryable error closes
the transport, but the subscription is STILL in the registry — the code
never removes a registry entry on a ceiling-triggered close, refuting
the claim's "removed from the registry" conjunct. -/
theorem ceilingClose_leaves_registry_entry :
    sourceClosed (deliverAll optsR1 0 [ListenEvent.errored "connect ECONNREFUSED"]
        (listen optsR1 "J" emptyClient)) 0 = true
    ∧ (deliverAll optsR1 0 [ListenEvent.errored "connect ECONNREFUSED"]
        (listen optsR1 "J" emptyClient)).eventSources = [{ id := "J", src := 0 }] := by
  decide

/-- C2 (amended): a fresh subscription with ceiling `C` receiving `N`
retryable error signals and no intervening open: if `N < C` it is never
closed (final state open, `closeCount = 0`, and every prefix leaves the
transport open); if `N ≥ C` the transport is closed exactly once
(`closeCount = 1`), immediately after the `C`-th signal (still open with
counter `C - 1` after `C - 1` signals, closed after `C`), and — contrary
to the original claim — the subscription REMAINS in the registry
(`eventSources` still holds the entry in `singleSubClosed`). -/
theorem retryCeiling_closes_once_registry_retained
    (o : ClientOptions) (id str : String) (C N : Nat)
    (hC : effCeiling o = C) (hstr : retryable str = true) :
    (N < C →
      deliverAll o 0 (List.replicate N (ListenEvent.errored str)) (listen o id emptyClient)
        = singleSub o id N ∧
      ∀ k, sourceClosed (deliverAll o 0 ((List.replicate N (ListenEvent.errored str)).take k)
          (listen o id emptyClient)) 0 = false) ∧
    (C ≤ N →
      deliverAll o 0 (List.replicate (C - 1) (ListenEvent.errored str))
          (listen o id emptyClient) = singleSub o id (C - 1) ∧
      deliverAll o 0 (List.replicate C (ListenEvent.errored str)) (listen o id emptyClient)
        = singleSubClosed o id C ∧
      deliverAll o 0 (List.replicate N (ListenEvent.errored str)) (listen o id emptyClient)
        = singleSubClosed o id C) := by
  have hpos : 1 ≤ C := hC ▸ effCeiling_pos o
  rw [listen_emptyClient]
  constructor
  · intro hN
    have h1 : deliverAll o 0 (List.replicate N (ListenEvent.errored str)) (singleSub o id 0)
        = singleSub o id N := by
      have h := deliverAll_err_iter o id str hstr N 0 (by omega)
      simpa using h
    refine ⟨h1, fun k => ?_⟩
    apply sourceClosed_take_of_final
    rw [h1]
    rfl
  · intro hN
    have hc1 : deliverAll o 0 (List.replicate (C - 1) (ListenEvent.errored str))
        (singleSub o id 0) = singleSub o id (C - 1) := by
      have h := deliverAll_err_iter o id str hstr (C - 1) 0 (by omega)
      simpa using h
    have hcC : deliverAll o 0 (List.replicate C (ListenEvent.errored str)) (singleSub o id 0)
        = singleSubClosed o id C := by
      have hsplit : List.replicate C (ListenEvent.errored str)
          = List.replicate (C - 1) (ListenEvent.errored str) ++ [ListenEvent.errored str] := by
        conv_lhs => rw [show C = (C - 1) + 1 by omega]
        rw [List.replicate_succ']
      rw [hsplit, deliverAll_append, hc1]
      have hstep : deliverAll o 0 [ListenEvent.errored str] (singleSub o id (C - 1))
          = singleSubClosed o id (C - 1 + 1) :=
        deliver_err_ge o id str (C - 1) hstr (by omega)
      rw [hstep, show C - 1 + 1 = C by omega]
    refine ⟨hc1, hcC, ?_⟩
    have hNsplit : List.replicate N (ListenEvent.errored str)
        = List.replicate C (ListenEvent.errored str)
          ++ List.replicate (N - C) (ListenEvent.errored str) := by
      conv_lhs => rw [show N = C + (N - C) by omega]
      rw [List.replicate_add]
    rw [hNsplit, deliverAll_append, hcC, deliverAll_closedState]

/-- Witness for C2 (amended): ceiling 3, five retryable signals. -/
theorem retryCeiling_closes_once_registry_retained_witness :
    deliverAll optsR3 0 (List.replicate 5 (ListenEvent.errored "No Found"))
        (listen optsR3 "J" emptyClient) = singleSubClosed optsR3 "J" 3 :=
  ((retryCeiling_closes_once_registry_retained optsR3 "J" "No Found" 3 5
      (by decide) (by decide)).2 (by omega)).2.2

/-- C7: a transport open resets the shared failure counter to `0`
unconditionally (first conjunct, for every state whose transport is
open), and consequently a fresh subscription with ceiling `C` surviving
`C - 1` retryable errors, one successful open, and `C - 1` further
retryable errors is never closed: the final state is `singleSub` with
counter `C - 1`, `closeCount = 0`, and every prefix of the sequence
leaves the transport open. -/
theorem openReset_forgives_prior_failures
    (o : ClientOptions) (id str : String) (C : Nat)
    (hC : effCeiling o = C) (hstr : retryable str = true) :
    (∀ (s : ClientState) (hd : Nat), sourceClosed s hd = false →
      deliver o hd ListenEvent.opened s = { s with listenRetries := 0 }) ∧
    deliverAll o 0 (List.replicate (C - 1) (ListenEvent.errored str) ++ [ListenEvent.opened]
        ++ List.replicate (C - 1) (ListenEvent.errored str)) (listen o id emptyClient)
      = singleSub o id (C - 1) ∧
    ∀ k, sourceClosed (deliverAll o 0 ((List.replicate (C - 1) (ListenEvent.errored str)
        ++ [ListenEvent.opened] ++ List.replicate (C - 1) (ListenEvent.errored str)).take k)
        (listen o id emptyClient)) 0 = false := by
  have hpos : 1 ≤ C := hC ▸ effCeiling_pos o
  have hiter : deliverAll o 0 (List.replicate (C - 1) (ListenEvent.errored str))
      (singleSub o id 0) = singleSub o id (C - 1) := by
    have h := deliverAll_err_iter o id str hstr (C - 1) 0 (by omega)
    simpa using h
  have hfull : deliverAll o 0 (List.replicate (C - 1) (ListenEvent.errored str)
      ++ [ListenEvent.opened] ++ List.replicate (C - 1) (ListenEvent.errored str))
      (listen o id emptyClient) = singleSub o id (C - 1) := by
    rw [listen_emptyClient, deliverAll_append, deliverAll_append, hiter]
    have hopen : deliverAll o 0 [ListenEvent.opened] (singleSub o id (C - 1))
        = singleSub o id 0 := deliver_opened o id (C - 1)
    rw [hopen, hiter]
  refine ⟨?_, hfull, fun k => ?_⟩
  · intro s hd h
    unfold deliver
    rw [if_neg (by simp [h])]
  · apply sourceClosed_take_of_final
    rw [hfull]
    rfl

/-- Witness for C7: ceiling 3, two errors, an open, two errors. -/
theorem openReset_forgives_prior_failures_witness :
    deliverAll optsR3 0 (List.replicate 2 (ListenEvent.errored "No Found")
        ++ [ListenEvent.opened] ++ List.replicate 2 (ListenEvent.errored "No Found"))
        (listen optsR3 "J" emptyClient) = singleSub optsR3 "J" 2 ∧
    sourceClosed (deliverAll optsR3 0 ((List.replicate 2 (ListenEvent.errored "No Found")
        ++ [ListenEvent.opened] ++ List.replicate 2 (ListenEvent.errored "No Found")).take 4)
        (listen optsR3 "J" emptyClient)) 0 = false :=
  ⟨(openReset_forgives_prior_failures optsR3 "J" "No Found" 3 (by decide) (by decide)).2.1,
   (openReset_forgives_prior_failures optsR3 "J" "No Found" 3 (by decide) (by decide)).2.2 4⟩

/-- C4 counterexample: the claim says a throwing callback's exception
propagates out of the message handler.  It does not: the handler's
`try` block wraps the `callback(data)` call, so at this concrete input
the callback is invoked (`invoked = [5]`), throws, and the handler
catches it (`caught = true`, `escaped = false`). -/
theorem callbackException_not_propagated :
    throwingCb 5 = Except.error "callback exception"
    ∧ natParse "5" = some 5
    ∧ (runOnMessage natParse throwingCb "5").escaped = false
    ∧ (runOnMessage natParse throwingCb "5").invoked = [5] := by
  exact ⟨rfl, by decide, by decide, by decide⟩

/-- C4 (amended): when the payload parses and the caller-supplied
callback throws, the exception IS contained by the message handler's
`try/catch`: the callback is invoked once, the catch branch runs (which
debug-logs), and no exception escapes the handler. -/
theorem callbackException_caught_and_logged {δ ε : Type} (parse : String → Option δ)
    (cb : δ → Except ε Unit) (raw : String) (d : δ) (e : ε)
    (hp : parse raw = some d) (hc : cb d = Except.error e) :
    runOnMessage parse cb raw = { invoked := [d], caught := true, escaped := false } := by
  unfold runOnMessage
  rw [hp]
  dsimp only
  rw [hc]

/-- Witness for C4 (amended) at a concrete throwing callback. -/
theorem callbackException_caught_and_logged_witness :
    runOnMessage natParse throwingCb "5"
      = { invoked := [5], caught := true, escaped := false } :=
  callbackException_caught_and_logged natParse throwingCb "5" 5 "callback exception"
    (by decide) rfl

/-- C8: over any message sequence, the callback receives exactly the
decoded payloads of the well-formed messages, in order — one invocation
per well-formed payload, none for malformed ones, and a malformed
payload earlier in the sequence cannot block later deliveries (the
result is exactly `filterMap parse`).  A malformed payload is swallowed:
the handler's catch branch runs (debug-logging) and nothing escapes. -/
theorem malformed_skipped_wellformed_delivered {δ ε : Type} (parse : String → Option δ)
    (cb : δ → Except ε Unit) (msgs : List String) :
    processMessages parse cb msgs = msgs.filterMap parse ∧
    ∀ raw, parse raw = none →
      runOnMessage parse cb raw = { invoked := [], caught := true, escaped := false } := by
  constructor
  · unfold processMessages
    rw [processMessages_go]
    simp
  · intro raw hp
    unfold runOnMessage
    rw [hp]

/-- Witness for C8: two malformed payloads interleaved with two
well-formed ones; the callback sees exactly `[5, 7]`. -/
theorem malformed_skipped_wellformed_delivered_witness :
    ["bad", "5", "x9", "7"].filterMap natParse = [5, 7]
    ∧ processMessages natParse okCb ["bad", "5", "x9", "7"]
        = ["bad", "5", "x9", "7"].filterMap natParse
    ∧ runOnMessage natParse okCb "bad"
        = { invoked := [], caught := true, escaped := false } :=
  ⟨by decide,
   (malformed_skipped_wellformed_delivered natParse okCb ["bad", "5", "x9", "7"]).1,
   (malformed_skipped_wellformed_delivered natParse okCb ["bad", "5", "x9", "7"]).2 "bad"
     (by decide)⟩

/-- C6: from any reachable client state, two consecutive `listenAll`
calls leave exactly one sentinel subscription, and the second call is a
no-op: it returns the state of the first call unchanged — no registry
entry is added and no transport is created or touched.  (Reachable
states satisfy the registry invariant `sentinelCount ≤ 1`, proved in
`sentinelCount_le_one_of_reachable`.) -/
theorem listenAll_idempotent (o : ClientOptions) (s : ClientState)
    (hr : Reachable s) :
    listenAll o (listenAll o s) = listenAll o s
    ∧ sentinelCount (listenAll o (listenAll o s)) = 1 := by
  have hs : sentinelCount s ≤ 1 := sentinelCount_le_one_of_reachable s hr
  have hALL : (lowerStr "ALL" == "all") = true := by decide
  have hnoop : ∀ t : ClientState, isListeningToAll t = true → listenAll o t = t := by
    intro t ht
    unfold listenAll internalListen
    rw [if_pos (by rw [hALL, ht]; decide)]
  cases hl : isListeningToAll s with
  | true =>
      have h1 : listenAll o s = s := hnoop s hl
      have hl' : s.eventSources.any (fun l => lowerStr l.id == "all") = true := hl
      have hge := length_filter_pos_of_any (fun l => lowerStr l.id == "all") s.eventSources hl'
      refine ⟨by rw [h1, h1], ?_⟩
      rw [h1, h1]
      unfold sentinelCount at hs ⊢
      omega
  | false =>
      have h1 : listenAll o s
          = { sources := s.sources
                ++ [{ url := mkUrl o "ALL", closed := false, closeCount := 0 }],
              eventSources := s.eventSources ++ [{ id := "ALL", src := s.sources.length }],
              listenRetries := s.listenRetries } := by
        unfold listenAll internalListen
        rw [if_neg (by intro h; rw [hl, Bool.and_false] at h; exact Bool.noConfusion h)]
      have h2 : isListeningToAll (listenAll o s) = true := by
        rw [h1]
        unfold isListeningToAll
        simp [List.any_append, hALL]
      have h3 := hnoop _ h2
      refine ⟨h3, ?_⟩
      rw [h3, h1]
      have h4 : s.eventSources.filter (fun l => lowerStr l.id == "all") = [] :=
        filter_eq_nil_of_any_false _ _ hl
      unfold sentinelCount
      simp [List.filter_append, h4, hALL]

/-- Witness for C6 starting from a fresh client. -/
theorem listenAll_idempotent_witness :
    listenAll optsR3 (listenAll optsR3 emptyClient) = listenAll optsR3 emptyClient
    ∧ sentinelCount (listenAll optsR3 (listenAll optsR3 emptyClient)) = 1 :=
  listenAll_idempotent optsR3 emptyClient Reachable.empty

/-- C10: `listen("ALL", cb)` is literally the same operation as
`listenAll(cb)`; any id that lower-cases to `"all"` (any casing) is
deduplicated against an existing sentinel subscription (the call is a
no-op); when no sentinel exists, exact `"ALL"` opens the all-jobs
endpoint (`all=true` query) while any other casing such as `"all"`
opens a job-specific endpoint (`jid=all` query). -/
theorem listen_sentinel_dedup_and_url (o : ClientOptions) (s : ClientState) (id : String) :
    listen o "ALL" s = listenAll o s
    ∧ (lowerStr id = "all" → isListeningToAll s = true → listen o id s = s)
    ∧ (isListeningToAll s = false →
        (listen o "ALL" s).sources
          = s.sources ++ [{ url := o.baseUrl ++ "/events?" ++ "all=true"
                ++ "&creds=" ++ o.credsEnc, closed := false, closeCount := 0 }])
    ∧ (isListeningToAll s = false →
        (listen o "all" s).sources
          = s.sources ++ [{ url := o.baseUrl ++ "/events?" ++ ("jid=" ++ "all")
                ++ "&creds=" ++ o.credsEnc, closed := false, closeCount := 0 }]) := by
  refine ⟨rfl, ?_, ?_, ?_⟩
  · intro hlow hall
    unfold listen internalListen
    rw [if_pos (by rw [hlow, hall]; decide)]
  · intro hall
    unfold listen internalListen
    rw [if_neg (by intro h; rw [hall, Bool.and_false] at h; exact Bool.noConfusion h)]
    unfold mkUrl
    rw [if_pos (by decide)]
  · intro hall
    unfold listen internalListen
    rw [if_neg (by intro h; rw [hall, Bool.and_false] at h; exact Bool.noConfusion h)]
    unfold mkUrl
    rw [if_neg (by decide)]

/-- Witness for C10: dedup of `listen("All")` against an existing
sentinel, and the two endpoint URLs on a fresh client. -/
theorem listen_sentinel_dedup_and_url_witness :
    listen optsR3 "All" (listenAll optsR3 emptyClient) = listenAll optsR3 emptyClient
    ∧ (listen optsR3 "ALL" emptyClient).sources
        = [{ url := "u" ++ "/events?" ++ "all=true" ++ "&creds=" ++ "c",
             closed := false, closeCount := 0 }]
    ∧ (listen optsR3 "all" emptyClient).sources
        = [{ url := "u" ++ "/events?" ++ ("jid=" ++ "all") ++ "&creds=" ++ "c",
             closed := false, closeCount := 0 }] :=
  ⟨(listen_sentinel_dedup_and_url optsR3 (listenAll optsR3 emptyClient) "All").2.1
      (by decide) (by decide),
   (listen_sentinel_dedup_and_url optsR3 emptyClient "ALL").2.2.1 (by decide),
   (listen_sentinel_dedup_and_url optsR3 emptyClient "all").2.2.2 (by decide)⟩

end Vencode
